import Mathlib

/-!
Verification of the rs1090 Mode S decoder core against its design
specification.

The development shallowly embeds the parts of the repository the claims
refer to:

* `src/src/decode/crc.rs` — the table-driven 24-bit Mode S CRC
  (`CRC_TABLE`, `modes_checksum`);
* `src/crates/decode1090/src/jet.rs` — the per-aircraft state-vector
  aggregator (`StateVectors`, `Snapshot`, `icao24`, `update_snapshot`)
  and the ingress writer loop.

Machine integers are embedded as `Nat` with explicit masking where the
Rust code masks; `u8` bytes are naturals carried with a `< 256` bound
where a claim needs it.  Timestamps (Rust `f64`, cast with `as u32` at
each use site) are embedded as naturals, with the saturating float-to-
integer cast modelled by `asU32`; this is exact for the nonnegative
integral timestamps the claims quantify over.  Values of Rust `f64`
fields that the aggregator merely moves (latitudes, track angles, ...)
are embedded as `Rat`: no arithmetic is performed on them by the code
under study, only `u16 as f64` casts, which are exact.
-/

/-! ## CRC engine (src/src/decode/crc.rs) -/

/-- Transcription of the 256-entry table `CRC_TABLE` from
`src/src/decode/crc.rs`, row for row. -/
def CRC_TABLE : List Nat := [
  0x00000000, 0x00fff409, 0x00001c1b, 0x00ffe812, 0x00003836, 0x00ffcc3f,
  0x0000242d, 0x00ffd024, 0x0000706c, 0x00ff8465, 0x00006c77, 0x00ff987e,
  0x0000485a, 0x00ffbc53, 0x00005441, 0x00ffa048, 0x0000e0d8, 0x00ff14d1,
  0x0000fcc3, 0x00ff08ca, 0x0000d8ee, 0x00ff2ce7, 0x0000c4f5, 0x00ff30fc,
  0x000090b4, 0x00ff64bd, 0x00008caf, 0x00ff78a6, 0x0000a882, 0x00ff5c8b,
  0x0000b499, 0x00ff4090, 0x0001c1b0, 0x00fe35b9, 0x0001ddab, 0x00fe29a2,
  0x0001f986, 0x00fe0d8f, 0x0001e59d, 0x00fe1194, 0x0001b1dc, 0x00fe45d5,
  0x0001adc7, 0x00fe59ce, 0x000189ea, 0x00fe7de3, 0x000195f1, 0x00fe61f8,
  0x00012168, 0x00fed561, 0x00013d73, 0x00fec97a, 0x0001195e, 0x00feed57,
  0x00010545, 0x00fef14c, 0x00015104, 0x00fea50d, 0x00014d1f, 0x00feb916,
  0x00016932, 0x00fe9d3b, 0x00017529, 0x00fe8120, 0x00038360, 0x00fc7769,
  0x00039f7b, 0x00fc6b72, 0x0003bb56, 0x00fc4f5f, 0x0003a74d, 0x00fc5344,
  0x0003f30c, 0x00fc0705, 0x0003ef17, 0x00fc1b1e, 0x0003cb3a, 0x00fc3f33,
  0x0003d721, 0x00fc2328, 0x000363b8, 0x00fc97b1, 0x00037fa3, 0x00fc8baa,
  0x00035b8e, 0x00fcaf87, 0x00034795, 0x00fcb39c, 0x000313d4, 0x00fce7dd,
  0x00030fcf, 0x00fcfbc6, 0x00032be2, 0x00fcdfeb, 0x000337f9, 0x00fcc3f0,
  0x000242d0, 0x00fdb6d9, 0x00025ecb, 0x00fdaac2, 0x00027ae6, 0x00fd8eef,
  0x000266fd, 0x00fd92f4, 0x000232bc, 0x00fdc6b5, 0x00022ea7, 0x00fddaae,
  0x00020a8a, 0x00fdfe83, 0x00021691, 0x00fde298, 0x0002a208, 0x00fd5601,
  0x0002be13, 0x00fd4a1a, 0x00029a3e, 0x00fd6e37, 0x00028625, 0x00fd722c,
  0x0002d264, 0x00fd266d, 0x0002ce7f, 0x00fd3a76, 0x0002ea52, 0x00fd1e5b,
  0x0002f649, 0x00fd0240, 0x000706c0, 0x00f8f2c9, 0x00071adb, 0x00f8eed2,
  0x00073ef6, 0x00f8caff, 0x000722ed, 0x00f8d6e4, 0x000776ac, 0x00f882a5,
  0x00076ab7, 0x00f89ebe, 0x00074e9a, 0x00f8ba93, 0x00075281, 0x00f8a688,
  0x0007e618, 0x00f81211, 0x0007fa03, 0x00f80e0a, 0x0007de2e, 0x00f82a27,
  0x0007c235, 0x00f8363c, 0x00079674, 0x00f8627d, 0x00078a6f, 0x00f87e66,
  0x0007ae42, 0x00f85a4b, 0x0007b259, 0x00f84650, 0x0006c770, 0x00f93379,
  0x0006db6b, 0x00f92f62, 0x0006ff46, 0x00f90b4f, 0x0006e35d, 0x00f91754,
  0x0006b71c, 0x00f94315, 0x0006ab07, 0x00f95f0e, 0x00068f2a, 0x00f97b23,
  0x00069331, 0x00f96738, 0x000627a8, 0x00f9d3a1, 0x00063bb3, 0x00f9cfba,
  0x00061f9e, 0x00f9eb97, 0x00060385, 0x00f9f78c, 0x000657c4, 0x00f9a3cd,
  0x00064bdf, 0x00f9bfd6, 0x00066ff2, 0x00f99bfb, 0x000673e9, 0x00f987e0,
  0x000485a0, 0x00fb71a9, 0x000499bb, 0x00fb6db2, 0x0004bd96, 0x00fb499f,
  0x0004a18d, 0x00fb5584, 0x0004f5cc, 0x00fb01c5, 0x0004e9d7, 0x00fb1dde,
  0x0004cdfa, 0x00fb39f3, 0x0004d1e1, 0x00fb25e8, 0x00046578, 0x00fb9171,
  0x00047963, 0x00fb8d6a, 0x00045d4e, 0x00fba947, 0x00044155, 0x00fbb55c,
  0x00041514, 0x00fbe11d, 0x0004090f, 0x00fbfd06, 0x00042d22, 0x00fbd92b,
  0x00043139, 0x00fbc530, 0x00054410, 0x00fab019, 0x0005580b, 0x00faac02,
  0x00057c26, 0x00fa882f, 0x0005603d, 0x00fa9434, 0x0005347c, 0x00fac075,
  0x00052867, 0x00fadc6e, 0x00050c4a, 0x00faf843, 0x00051051, 0x00fae458,
  0x0005a4c8, 0x00fa50c1, 0x0005b8d3, 0x00fa4cda, 0x00059cfe, 0x00fa68f7,
  0x000580e5, 0x00fa74ec, 0x0005d4a4, 0x00fa20ad, 0x0005c8bf, 0x00fa3cb6,
  0x0005ec92, 0x00fa189b, 0x0005f089, 0x00fa0480]

/-- Error type of the checksum routine; the Rust code returns
`DekuError::Incomplete(NeedSize::new(4))` on short input. -/
inductive DekuError where
  | Incomplete (needSize : Nat)
deriving DecidableEq, Repr

/-- Mirror of Rust `Result<u32, DekuError>` as returned by
`modes_checksum`. -/
inductive CrcResult where
  | ok (v : Nat)
  | err (e : DekuError)
deriving DecidableEq, Repr

/-- The loop body of `modes_checksum`: one byte-at-a-time CRC step,
masked to 24 bits exactly as the Rust code masks. -/
def crcStep (rem b : Nat) : Nat :=
  ((rem <<< 8) ^^^ CRC_TABLE.getD (b ^^^ ((rem &&& 0x00ff0000) >>> 16)) 0)
    &&& 0x00ffffff

/-- The value computed by `modes_checksum` on the success path for an
`n`-byte frame: the table-driven remainder over the first `n - 3`
bytes, XORed with the final three bytes as a big-endian 24-bit word. -/
def checksumVal (message : List Nat) (n : Nat) : Nat :=
  let rem := (List.range (n - 3)).foldl
    (fun rem i => crcStep rem (message.getD i 0)) 0
  let msg_1 := (message.getD (n - 3) 0) <<< 16
  let msg_2 := (message.getD (n - 2) 0) <<< 8
  let msg_3 := message.getD (n - 1) 0
  rem ^^^ (msg_1 ^^^ msg_2 ^^^ msg_3)

/-- Embedding of `modes_checksum` from `src/src/decode/crc.rs`.  All
`u32` intermediates stay below `2 ^ 32` (the running remainder is
masked to 24 bits before each shift by 8), so plain `Nat` arithmetic is
exact. -/
def modes_checksum (message : List Nat) (bits : Nat) : CrcResult :=
  let n := bits / 8
  if n < 3 ∨ message.length < n then
    .err (.Incomplete 4)
  else
    .ok (checksumVal message n)

/-- The test frame `8D406B902015A678D4D220AA4BDA` of the spec's
scenario 1, as bytes. -/
def frame1 : List Nat :=
  [0x8D, 0x40, 0x6B, 0x90, 0x20, 0x15, 0xA6, 0x78,
   0xD4, 0xD2, 0x20, 0xAA, 0x4B, 0xDA]

/-- Flip bit `i` of a frame (byte `i / 8`, bit `i % 8` of that byte);
as `i` ranges over `0 .. 8 * length`, every single-bit corruption of
the frame is produced exactly once. -/
def flipBit (msg : List Nat) (i : Nat) : List Nat :=
  msg.set (i / 8) ((msg.getD (i / 8) 0) ^^^ (1 <<< (i % 8)))

/-- The Mode S generator polynomial (25 bits). -/
def MODES_POLY : Nat := 0x1FFF409

/-- One pass of most-significant-bit-first polynomial reduction over
GF(2): at step `k` the divisor is aligned so that its leading term sits
at bit `24 + k`; if the dividend still has that bit set (equivalently,
`2 ^ (24 + k) ≤ a`, since all higher bits were cleared by earlier
steps), the aligned divisor is subtracted (XOR). -/
def gf2Reduce : Nat → Nat → Nat
  | 0, a => a
  | k + 1, a =>
    gf2Reduce k (if 2 ^ (24 + k) ≤ a then a ^^^ (MODES_POLY <<< k) else a)

/-- Remainder of `a` modulo the Mode S generator polynomial over GF(2),
for dividends of degree below 56 (all uses here are below `2 ^ 32`). -/
def gf2Mod24 (a : Nat) : Nat := gf2Reduce 32 a

/-! ## State aggregator (src/crates/decode1090/src/jet.rs)

Data model of the message variants and payload fields that
`update_snapshot` reads.  The payload types live in the rs1090 decoder
crate; only the shape `jet.rs` pattern-matches on is embedded: each
field below is exactly a field the aggregator reads, with `Option` where
the Rust field is an `Option`. -/

/-- Stand-in for Rust `f64` values that the aggregator only moves
between fields.  No floating-point arithmetic is performed on these
values by the code under study; the only cast is `u16 as f64`, which is
exact, so an exact numeric type is a faithful carrier. -/
abbrev F64 := Rat

/-- A 24-bit ICAO aircraft address. -/
abbrev ICAO := Nat

/-- Modelled from the spec: the `Display` of an ICAO address (rs1090
crate, not under src/) renders it as a hex string of 6 lowercase chars
("State map: a mapping from ICAO (hex string, 6 lowercase chars) to
snapshot"). -/
def icaoToString (a : ICAO) : String :=
  String.mk ((List.range 6).reverse.map
    (fun i => Nat.digitChar ((a >>> (4 * i)) &&& 0xf)))

/-- BDS 0,5 airborne position payload fields read by the aggregator:
`latitude`/`longitude` are populated by the position reconstructor (or
left unset), `alt` by the frame parser. -/
structure BDS05Fields where
  latitude : Option F64
  longitude : Option F64
  alt : Option Nat
deriving DecidableEq, Repr

/-- BDS 0,6 surface position payload fields read by the aggregator. -/
structure BDS06Fields where
  latitude : Option F64
  longitude : Option F64
  track : Option F64
  groundspeed : Option F64
deriving DecidableEq, Repr

/-- BDS 0,8 identification payload field read by the aggregator. -/
structure BDS08Fields where
  callsign : String
deriving DecidableEq, Repr

/-- BDS 0,9 airborne velocity payload field read by the aggregator. -/
structure BDS09Fields where
  vertical_rate : Option Int
deriving DecidableEq, Repr

/-- The ME (Message Extended) payload, tagged by BDS register, reduced
to the variants `update_snapshot` distinguishes. -/
inductive ME where
  | BDS05 (b : BDS05Fields)
  | BDS06 (b : BDS06Fields)
  | BDS08 (b : BDS08Fields)
  | BDS09 (b : BDS09Fields)
  | otherME
deriving DecidableEq, Repr

/-- ADSB payload of DF 17 as used by `jet.rs`: plaintext address and ME
payload. -/
structure ADSB where
  icao24 : ICAO
  message : ME
deriving DecidableEq, Repr

/-- Control-field payload of DF 18 as used by `jet.rs`: the AA address
handed to the position reconstructor, and the ME payload. -/
structure CF where
  aa : ICAO
  me : ME
deriving DecidableEq, Repr

/-- BDS 5,0 (track and turn report) fields read by the aggregator. -/
structure BDS50Fields where
  roll_angle : Option F64
  track_angle : Option F64
  groundspeed : Option Nat
deriving DecidableEq, Repr

/-- BDS 6,0 (heading and speed report) fields read by the aggregator. -/
structure BDS60Fields where
  indicated_airspeed : Option Nat
  mach_number : Option F64
deriving DecidableEq, Repr

/-- The Comm-B MB classification carried by DF 20/21: the parser may
mark the register as BDS 5,0, BDS 6,0, both, or neither. -/
structure CommBData where
  bds50 : Option BDS50Fields
  bds60 : Option BDS60Fields
deriving DecidableEq, Repr

/-- The Downlink Format variants distinguished by `icao24` and
`update_snapshot` in `jet.rs`, with exactly the fields those functions
read. -/
inductive DF where
  | ShortAirAirSurveillance (ap : ICAO)
  | SurveillanceAltitudeReply (ac : Nat) (ap : ICAO)
  | SurveillanceIdentityReply (id : Nat) (ap : ICAO)
  | AllCallReply (icao : ICAO)
  | LongAirAirSurveillance (ap : ICAO)
  | ExtendedSquitterADSB (adsb : ADSB)
  | ExtendedSquitterTisB (cf : CF) (pi : ICAO)
  | CommBAltitudeReply (bds : CommBData) (ap : ICAO)
  | CommBIdentityReply (bds : CommBData) (ap : ICAO)
  | otherDF
deriving DecidableEq, Repr

/-- A decoded message (the `Message` struct field `df` is all `jet.rs`
reads). -/
structure Message where
  df : DF
deriving DecidableEq, Repr

/-- A timestamped frame travelling through the writer loop.  The Rust
timestamp is `f64` seconds; every read site in `jet.rs` casts it with
`as u32`, so it is embedded as a natural number together with the
saturating cast `asU32` (exact for nonnegative integral values). -/
structure TimedMessage where
  timestamp : Nat
  frame : String
  message : Option Message
deriving DecidableEq, Repr

/-- Rust `f64 as u32` saturating cast, restricted to the nonnegative
integral values the embedding carries. -/
def asU32 (t : Nat) : Nat := min t 4294967295

/-- The per-aircraft snapshot record of `jet.rs`. -/
structure Snapshot where
  first : Nat
  last : Nat
  callsign : Option String
  squawk : Option Nat
  latitude : Option F64
  longitude : Option F64
  altitude : Option Nat
  groundspeed : Option F64
  vertical_rate : Option Int
  track : Option F64
  ias : Option Nat
  mach : Option F64
  roll : Option F64
deriving DecidableEq, Repr

/-- The per-aircraft state-vector record (history field is commented
out in the source). -/
structure StateVectors where
  cur : Snapshot
deriving DecidableEq, Repr

/-- Embedding of `StateVectors::new`: a fresh snapshot with
`first = last = ts` and every optional field unset. -/
def StateVectors.new (ts : Nat) : StateVectors :=
  { cur :=
    { first := ts
      last := ts
      callsign := none
      squawk := none
      latitude := none
      longitude := none
      altitude := none
      groundspeed := none
      vertical_rate := none
      track := none
      ias := none
      mach := none
      roll := none } }

/-- The shared `BTreeMap<String, StateVectors>`, embedded as a partial
map from key strings to state vectors. -/
abbrev StateMap := String → Option StateVectors

/-- The initially empty state map. -/
def emptyStates : StateMap := fun _ => none

/-- Embedding of the `icao24` helper of `jet.rs`: the map key chosen
for each message variant (rendered address string), or `none` for
unhandled variants. -/
def icao24 (msg : Message) : Option String :=
  match msg.df with
  | .ShortAirAirSurveillance ap => some (icaoToString ap)
  | .SurveillanceAltitudeReply _ ap => some (icaoToString ap)
  | .SurveillanceIdentityReply _ ap => some (icaoToString ap)
  | .AllCallReply icao => some (icaoToString icao)
  | .LongAirAirSurveillance ap => some (icaoToString ap)
  | .ExtendedSquitterADSB adsb => some (icaoToString adsb.icao24)
  | .ExtendedSquitterTisB _ pi => some (icaoToString pi)
  | .CommBAltitudeReply _ ap => some (icaoToString ap)
  | .CommBIdentityReply _ ap => some (icaoToString ap)
  | .otherDF => none

/-- The `match &mut message.df` body of `update_snapshot`: given the
current snapshot (with `last` already overwritten) and the message's
`df`, produce the updated snapshot and the possibly mutated `df` (the
DF 20/21 arms invalidate the BDS classification in place). -/
def applyDF (cur : Snapshot) (df : DF) : Snapshot × DF :=
  match df with
  | .SurveillanceIdentityReply id _ => ({ cur with squawk := some id }, df)
  | .SurveillanceAltitudeReply ac _ => ({ cur with altitude := some ac }, df)
  | .ExtendedSquitterADSB adsb =>
    (match adsb.message with
     | .BDS05 b =>
       { cur with
         latitude := b.latitude
         longitude := b.longitude
         altitude := b.alt }
     | .BDS06 b =>
       { cur with
         latitude := b.latitude
         longitude := b.longitude
         track := b.track
         groundspeed := b.groundspeed }
     | .BDS08 b => { cur with callsign := some b.callsign }
     | .BDS09 b => { cur with vertical_rate := b.vertical_rate }
     | .otherME => cur, df)
  | .ExtendedSquitterTisB cf _ =>
    (match cf.me with
     | .BDS05 b =>
       { cur with
         latitude := b.latitude
         longitude := b.longitude
         altitude := b.alt }
     | .BDS06 b =>
       { cur with
         latitude := b.latitude
         longitude := b.longitude
         track := b.track
         groundspeed := b.groundspeed }
     | .BDS08 b => { cur with callsign := some b.callsign }
     | _ => cur, df)
  | .CommBAltitudeReply bds ap =>
    if bds.bds50.isSome && bds.bds60.isSome then
      (cur, .CommBAltitudeReply { bds50 := none, bds60 := none } ap)
    else
      (cur, df)
  | .CommBIdentityReply bds ap =>
    let bds1 : CommBData :=
      if bds.bds50.isSome && bds.bds60.isSome then
        { bds50 := none, bds60 := none }
      else bds
    let cur1 : Snapshot :=
      match bds1.bds50 with
      | some b50 =>
        { cur with
          roll := b50.roll_angle
          track := b50.track_angle
          groundspeed := b50.groundspeed.map (fun x => (x : F64)) }
      | none => cur
    let cur2 : Snapshot :=
      match bds1.bds60 with
      | some b60 =>
        { cur1 with
          ias := b60.indicated_airspeed
          mach := b60.mach_number }
      | none => cur1
    (cur2, .CommBIdentityReply bds1 ap)
  | _ => (cur, df)

/-- Embedding of `update_snapshot`: look up the key via `icao24`,
insert a fresh `StateVectors::new` entry when missing, overwrite
`last` with the message timestamp, then apply the per-DF update rules.
Returns the new map together with the (possibly mutated) message. -/
def update_snapshot (states : StateMap) (msg : TimedMessage) :
    StateMap × TimedMessage :=
  match msg.message with
  | none => (states, msg)
  | some message =>
    match icao24 message with
    | none => (states, msg)
    | some key =>
      let t := asU32 msg.timestamp
      let sv := (states key).getD (StateVectors.new t)
      let res := applyDF { sv.cur with last := t } message.df
      (fun k => if k = key then some { cur := res.1 } else states k,
       { msg with message := some { df := res.2 } })

/-- Folding a sequence of ingress messages through the aggregator, in
arrival order. -/
def processAll (states : StateMap) (msgs : List TimedMessage) : StateMap :=
  msgs.foldl (fun s m => (update_snapshot s m).1) states

/-- The aircraft address handed to the position reconstructor by the
`match &mut message.df` in `main` (jet.rs): the plaintext `icao24`
field for DF 17, the control field address `cf.aa` for DF 18; for every
other variant `decode_position` is not invoked. -/
def cprTarget (df : DF) : Option ICAO :=
  match df with
  | .ExtendedSquitterADSB adsb => some adsb.icao24
  | .ExtendedSquitterTisB cf _ => some cf.aa
  | _ => none

/-! ## Ingress writer loop (jet.rs, `main`) -/

/-- Value of a single hex digit, as accepted by the `hex` crate. -/
def hexDigit? (c : Char) : Option Nat :=
  if '0' ≤ c ∧ c ≤ '9' then some (c.toNat - '0'.toNat)
  else if 'a' ≤ c ∧ c ≤ 'f' then some (c.toNat - 'a'.toNat + 10)
  else if 'A' ≤ c ∧ c ≤ 'F' then some (c.toNat - 'A'.toNat + 10)
  else none

/-- Decode a hex character list two digits per byte; `none` on an odd
number of digits or a non-hex character (the `hex` crate's
`OddLength` / `InvalidHexCharacter` errors). -/
def hexDecodeChars : List Char → Option (List Nat)
  | [] => some []
  | [_] => none
  | c1 :: c2 :: rest =>
    match hexDigit? c1, hexDigit? c2, hexDecodeChars rest with
    | some hi, some lo, some bs => some ((16 * hi + lo) :: bs)
    | _, _, _ => none

/-- Embedding of `hex::decode` on the ingress frame string. -/
def hexDecode (s : String) : Option (List Nat) := hexDecodeChars s.data

/-- Outcome of one iteration of the ingress writer loop, as far as
control flow is concerned: either the task panics or the loop reaches
the next `rx.recv()`. -/
inductive WriterOutcome where
  | panicked
  | continued
deriving DecidableEq, Repr

/-- Control-flow embedding of one iteration of the writer loop in
`main` (jet.rs): `let frame = hex::decode(&tmsg.frame).unwrap();`
panics the task when the frame string is not valid hex; on valid hex
the iteration runs to completion (parse failures are skipped by the
`if let`) and the loop continues with the next message. -/
def writerStep (frameStr : String) : WriterOutcome :=
  match hexDecode frameStr with
  | none => .panicked
  | some _ => .continued

/-- Convenience constructor for a timed message carrying one decoded
frame. -/
def mkTimed (ts : Nat) (fr : String) (df : DF) : TimedMessage :=
  { timestamp := ts, frame := fr, message := some { df := df } }

/-- Timestamp invariant carried through the fold: every entry satisfies
`first ≤ last` and was created no later than logical time `T`. -/
def TsInv (s : StateMap) (T : Nat) : Prop :=
  ∀ k sv, s k = some sv → sv.cur.first ≤ sv.cur.last ∧ sv.cur.first ≤ T

/-! ## Theorems -/

theorem getD_self_or_mem (l : List Nat) (i d : Nat) :
    l.getD i d = d ∨ l.getD i d ∈ l := by
  rcases h : l[i]? with _ | x
  · left; simp [List.getD, h]
  · right
    have := List.getElem?_mem h
    simpa [List.getD, h]

theorem crcStep_lt (rem b : Nat) : crcStep rem b < 2 ^ 24 :=
  Nat.lt_of_le_of_lt (Nat.and_le_right) (by norm_num)

theorem crcFold_lt (message : List Nat) (l : List Nat) (init : Nat)
    (h : init < 2 ^ 24) :
    l.foldl (fun rem i => crcStep rem (message.getD i 0)) init < 2 ^ 24 := by
  induction l generalizing init with
  | nil => simpa using h
  | cons x xs ih => simpa using ih _ (crcStep_lt _ _)

theorem shl_lt (b k m : Nat) (h : b < m) : b <<< k < m * 2 ^ k := by
  rw [Nat.shiftLeft_eq]
  exact (Nat.mul_lt_mul_right (by positivity)).mpr h

theorem checksumVal_lt (message : List Nat) (n : Nat)
    (hb : ∀ b ∈ message, b < 256) : checksumVal message n < 2 ^ 24 := by
  have hbyte : ∀ i, message.getD i 0 < 256 := by
    intro i
    rcases getD_self_or_mem message i 0 with h | h
    · omega
    · exact hb _ h
  have hrem := crcFold_lt message (List.range (n - 3)) 0 (by norm_num)
  have h1 : (message.getD (n - 3) 0) <<< 16 < 2 ^ 24 :=
    lt_of_lt_of_le (shl_lt _ 16 256 (hbyte _)) (by norm_num)
  have h2 : (message.getD (n - 2) 0) <<< 8 < 2 ^ 24 :=
    lt_of_lt_of_le (shl_lt _ 8 256 (hbyte _)) (by norm_num)
  have h3 : message.getD (n - 1) 0 < 2 ^ 24 :=
    lt_trans (hbyte _) (by norm_num)
  simp only [checksumVal]
  exact Nat.xor_lt_two_pow hrem
    (Nat.xor_lt_two_pow (Nat.xor_lt_two_pow h1 h2) h3)

/-- C7: `modes_checksum` fails with the short-frame error exactly when
`bits < 24` or fewer than `bits / 8` bytes are supplied; on every input
meeting the precondition it succeeds with a 24-bit value. -/
theorem modes_checksum_contract (message : List Nat) (bits : Nat) :
    (modes_checksum message bits = .err (.Incomplete 4) ↔
      bits < 24 ∨ message.length < bits / 8) ∧
    (24 ≤ bits → bits / 8 ≤ message.length → (∀ b ∈ message, b < 256) →
      ∃ v, modes_checksum message bits = .ok v ∧ v < 2 ^ 24) := by
  have hdiv : bits / 8 < 3 ↔ bits < 24 := by
    rw [Nat.div_lt_iff_lt_mul (by norm_num)]
  constructor
  · by_cases h : bits / 8 < 3 ∨ message.length < bits / 8
    · simp only [modes_checksum, if_pos h]
      exact ⟨fun _ => h.imp hdiv.mp id, fun _ => trivial⟩
    · simp only [modes_checksum, if_neg h]
      rw [hdiv] at h
      exact iff_of_false (by intro hc; cases hc) h
  · intro h24 hlen hb
    have h3 : ¬ (bits / 8 < 3 ∨ message.length < bits / 8) := by
      rw [hdiv]; omega
    simp only [modes_checksum, if_neg h3]
    exact ⟨checksumVal message (bits / 8), rfl, checksumVal_lt _ _ hb⟩

theorem modes_checksum_contract_witness :
    (modes_checksum frame1 112 = .err (.Incomplete 4) ↔
      112 < 24 ∨ frame1.length < 112 / 8) ∧
    ∃ v, modes_checksum frame1 112 = .ok v ∧ v < 2 ^ 24 :=
  ⟨(modes_checksum_contract frame1 112).1,
   (modes_checksum_contract frame1 112).2 (by decide) (by decide) (by decide)⟩

set_option maxRecDepth 10000 in
/-- C5: the 14-byte test frame has checksum 0 over 112 bits, and every
single-bit corruption of it has a nonzero checksum. -/
theorem crc_frame1_and_flips :
    modes_checksum frame1 112 = .ok 0 ∧
    ∀ i ∈ List.range 112, ¬ modes_checksum (flipBit frame1 i) 112 = .ok 0 := by
  decide

theorem crc_frame1_and_flips_witness :
    ¬ modes_checksum (flipBit frame1 0) 112 = .ok 0 :=
  crc_frame1_and_flips.2 0 (by decide)

/-- C6 counterexample: entry 1 of the table is not the GF(2) remainder
of `1 <<< 16` (that word already has degree below 24, so its remainder,
masked to 24 bits, is itself). -/
theorem crc_table_entry1_not_shift16_residue :
    ¬ CRC_TABLE.getD 1 0 = gf2Mod24 (1 <<< 16) &&& 0x00ffffff := by
  decide

set_option maxRecDepth 40000 in
/-- C6 amended: every table entry is the GF(2) remainder of `b <<< 24`
by the Mode S generator polynomial, and is below `2 ^ 24`. -/
theorem crc_table_entries :
    CRC_TABLE.length = 256 ∧
    ∀ b ∈ List.range 256,
      CRC_TABLE.getD b 0 = gf2Mod24 (b <<< 24) ∧
      CRC_TABLE.getD b 0 < 2 ^ 24 := by
  decide

theorem crc_table_entries_witness :
    CRC_TABLE.getD 2 0 = gf2Mod24 (2 <<< 24) ∧ CRC_TABLE.getD 2 0 < 2 ^ 24 :=
  crc_table_entries.2 2 (by decide)

theorem applyDF_first (cur : Snapshot) (df : DF) :
    (applyDF cur df).1.first = cur.first := by
  cases df with
  | ExtendedSquitterADSB adsb =>
    obtain ⟨ic, me⟩ := adsb
    cases me <;> rfl
  | ExtendedSquitterTisB cf pi =>
    obtain ⟨aa, me⟩ := cf
    cases me <;> rfl
  | CommBAltitudeReply bds ap =>
    obtain ⟨b50, b60⟩ := bds
    cases b50 <;> cases b60 <;> rfl
  | CommBIdentityReply bds ap =>
    obtain ⟨b50, b60⟩ := bds
    cases b50 <;> cases b60 <;> rfl
  | _ => rfl

theorem applyDF_last (cur : Snapshot) (df : DF) :
    (applyDF cur df).1.last = cur.last := by
  cases df with
  | ExtendedSquitterADSB adsb =>
    obtain ⟨ic, me⟩ := adsb
    cases me <;> rfl
  | ExtendedSquitterTisB cf pi =>
    obtain ⟨aa, me⟩ := cf
    cases me <;> rfl
  | CommBAltitudeReply bds ap =>
    obtain ⟨b50, b60⟩ := bds
    cases b50 <;> cases b60 <;> rfl
  | CommBIdentityReply bds ap =>
    obtain ⟨b50, b60⟩ := bds
    cases b50 <;> cases b60 <;> rfl
  | _ => rfl

theorem update_snapshot_self (states : StateMap) (ts : Nat) (fr : String)
    (message : Message) (key : String) (hk : icao24 message = some key) :
    (update_snapshot states { timestamp := ts, frame := fr,
                              message := some message }).1 key =
      some { cur := (applyDF
        { ((states key).getD (StateVectors.new (asU32 ts))).cur with
          last := asU32 ts } message.df).1 } := by
  simp [update_snapshot, hk]

theorem update_snapshot_other (states : StateMap) (ts : Nat) (fr : String)
    (message : Message) (key k : String) (hk : icao24 message = some key)
    (hne : k ≠ key) :
    (update_snapshot states { timestamp := ts, frame := fr,
                              message := some message }).1 k = states k := by
  simp [update_snapshot, hk, hne]

/-- C1 amended: processing a message overwrites the stored `last`
with the message timestamp unconditionally. -/
theorem update_snapshot_last (states : StateMap) (msg : TimedMessage)
    (message : Message) (key : String)
    (hm : msg.message = some message) (hk : icao24 message = some key) :
    ∃ sv, (update_snapshot states msg).1 key = some sv ∧
      sv.cur.last = asU32 msg.timestamp := by
  obtain ⟨ts, fr, mm⟩ := msg
  simp only at hm
  subst hm
  refine ⟨_, update_snapshot_self states ts fr message key hk, ?_⟩
  simp [applyDF_last]

theorem update_snapshot_last_witness :
    ∃ sv,
      (update_snapshot emptyStates
        { timestamp := 3, frame := "", message := some { df := .AllCallReply 0 } }).1
        "000000" = some sv ∧
      sv.cur.last = asU32 3 :=
  update_snapshot_last emptyStates _ { df := .AllCallReply 0 } "000000" rfl (by decide)

/-- C1 counterexample: a later message with a smaller timestamp lowers
the stored `last`. -/
theorem last_ts_can_decrease :
    (((update_snapshot emptyStates
        { timestamp := 10, frame := "", message := some { df := .AllCallReply 0 } }).1
        "000000").map (fun sv => sv.cur.last) = some 10) ∧
    (((update_snapshot
        (update_snapshot emptyStates
          { timestamp := 10, frame := "", message := some { df := .AllCallReply 0 } }).1
        { timestamp := 5, frame := "", message := some { df := .AllCallReply 0 } }).1
        "000000").map (fun sv => sv.cur.last) = some 5) ∧
    5 < 10 := by
  decide

theorem tsInv_mono (s : StateMap) (T T2 : Nat) (h : TsInv s T) (hT : T ≤ T2) :
    TsInv s T2 := fun k sv hk =>
  ⟨(h k sv hk).1, le_trans (h k sv hk).2 hT⟩

theorem tsInv_update (s : StateMap) (T : Nat) (msg : TimedMessage)
    (h : TsInv s T) (hT : T ≤ asU32 msg.timestamp) :
    TsInv (update_snapshot s msg).1 (asU32 msg.timestamp) := by
  obtain ⟨ts, fr, mm⟩ := msg
  simp only at hT ⊢
  cases mm with
  | none => exact tsInv_mono _ _ _ h hT
  | some message =>
    rcases hko : icao24 message with _ | key
    · intro k sv hk
      simp only [update_snapshot, hko] at hk
      exact tsInv_mono _ _ _ h hT k sv hk
    · intro k sv hk
      by_cases hkey : k = key
      · subst hkey
        rw [update_snapshot_self s ts fr message k hko] at hk
        obtain rfl := Option.some.inj hk
        have hfirst : ((s k).getD (StateVectors.new (asU32 ts))).cur.first
            ≤ asU32 ts := by
          rcases hsk : s k with _ | sv0
          · simp [StateVectors.new]
          · simpa using le_trans (h k sv0 hsk).2 hT
        constructor
        · rw [applyDF_first, applyDF_last]
          simpa using hfirst
        · rw [applyDF_first]
          simpa using hfirst
      · rw [update_snapshot_other s ts fr message key k hko hkey] at hk
        exact tsInv_mono _ _ _ h hT k sv hk

theorem tsInv_processAll (msgs : List TimedMessage) :
    ∀ (s : StateMap) (T : Nat), TsInv s T →
      (∀ m ∈ msgs.head?, T ≤ asU32 m.timestamp) →
      msgs.Chain' (fun a b => a.timestamp ≤ b.timestamp) →
      ∃ T2, TsInv (processAll s msgs) T2 := by
  induction msgs with
  | nil => exact fun s T h _ _ => ⟨T, h⟩
  | cons m ms ih =>
    intro s T h hhead hchain
    have hT : T ≤ asU32 m.timestamp := hhead m rfl
    rw [List.chain'_cons'] at hchain
    have hstep := tsInv_update s T m h hT
    have hnext : ∀ m2 ∈ ms.head?, asU32 m.timestamp ≤ asU32 m2.timestamp :=
      fun m2 hm2 => min_le_min (hchain.1 m2 hm2) (le_refl _)
    have := ih _ _ hstep hnext hchain.2
    simpa [processAll] using this

/-- C8 amended: a missing key is created with
`first = last = asU32 ts`, and along any sequence of messages with
nondecreasing timestamps every snapshot satisfies `first ≤ last`. -/
theorem snapshot_first_le_last :
    (∀ (states : StateMap) (msg : TimedMessage) (message : Message)
        (key : String),
      msg.message = some message → icao24 message = some key →
      states key = none →
      ∃ sv, (update_snapshot states msg).1 key = some sv ∧
        sv.cur.first = asU32 msg.timestamp ∧
        sv.cur.last = asU32 msg.timestamp) ∧
    (∀ msgs : List TimedMessage,
      msgs.Chain' (fun a b => a.timestamp ≤ b.timestamp) →
      ∀ key sv, processAll emptyStates msgs key = some sv →
        sv.cur.first ≤ sv.cur.last) := by
  constructor
  · intro states msg message key hm hk hnone
    obtain ⟨ts, fr, mm⟩ := msg
    simp only at hm
    subst hm
    refine ⟨_, update_snapshot_self states ts fr message key hk, ?_, ?_⟩
    · rw [applyDF_first]
      simp [hnone, StateVectors.new]
    · rw [applyDF_last]
  · intro msgs hchain key sv hk
    obtain ⟨T2, hinv⟩ := tsInv_processAll msgs emptyStates 0
      (fun k sv0 h0 => absurd h0 (by simp [emptyStates]))
      (fun m _ => Nat.zero_le _) hchain
    exact (hinv key sv hk).1

theorem snapshot_first_le_last_witness :
    (∃ sv,
      (update_snapshot emptyStates
        { timestamp := 3, frame := "",
          message := some { df := .AllCallReply 0 } }).1 "000000" = some sv ∧
      sv.cur.first = asU32 3 ∧ sv.cur.last = asU32 3) ∧
    (∀ key sv,
      processAll emptyStates
        [{ timestamp := 4, frame := "",
           message := some { df := .AllCallReply 0 } },
         { timestamp := 9, frame := "",
           message := some { df := .AllCallReply 0 } }] key = some sv →
      sv.cur.first ≤ sv.cur.last) :=
  ⟨snapshot_first_le_last.1 emptyStates _ { df := .AllCallReply 0 } "000000"
      rfl (by decide) rfl,
   snapshot_first_le_last.2 _
     (List.Chain.cons (by decide) List.Chain.nil)⟩

/-- C8 counterexample: after an in-order then an out-of-order message,
the stored snapshot has `first = 10` and `last = 5`. -/
theorem first_le_last_can_fail :
    ((processAll emptyStates
        [{ timestamp := 10, frame := "",
           message := some { df := .AllCallReply 0 } },
         { timestamp := 5, frame := "",
           message := some { df := .AllCallReply 0 } }] "000000").map
      (fun sv => (sv.cur.first, sv.cur.last)) = some (10, 5)) ∧
    ¬ (10 : Nat) ≤ 5 := by
  decide

/-- C2 amended: BDS05 messages overwrite latitude/longitude/altitude
with the reconstructor's optional outputs, for DF 17 and DF 18. -/
theorem bds05_overwrites_position (states : StateMap) (ts : Nat)
    (fr : String) (ic aa pi : ICAO) (b : BDS05Fields) :
    (∃ sv, (update_snapshot states
        (mkTimed ts fr (.ExtendedSquitterADSB ⟨ic, .BDS05 b⟩))).1
        (icaoToString ic) = some sv ∧
      sv.cur.latitude = b.latitude ∧ sv.cur.longitude = b.longitude ∧
      sv.cur.altitude = b.alt) ∧
    (∃ sv, (update_snapshot states
        (mkTimed ts fr (.ExtendedSquitterTisB ⟨aa, .BDS05 b⟩ pi))).1
        (icaoToString pi) = some sv ∧
      sv.cur.latitude = b.latitude ∧ sv.cur.longitude = b.longitude ∧
      sv.cur.altitude = b.alt) :=
  ⟨⟨_, update_snapshot_self states ts fr _ _ rfl, rfl, rfl, rfl⟩,
   ⟨_, update_snapshot_self states ts fr _ _ rfl, rfl, rfl, rfl⟩⟩

/-- C2 counterexample: a stored position is cleared, not preserved,
when a later BDS05 message has unpopulated latitude/longitude. -/
theorem bds05_none_clears_position :
    (((update_snapshot emptyStates
        (mkTimed 1 "" (.ExtendedSquitterADSB
          ⟨0x222222, .BDS05 ⟨some 5, some 6, some 1000⟩⟩))).1 "222222").map
      (fun sv => (sv.cur.latitude, sv.cur.longitude)) =
        some (some 5, some 6)) ∧
    ((processAll emptyStates
        [mkTimed 1 "" (.ExtendedSquitterADSB
          ⟨0x222222, .BDS05 ⟨some 5, some 6, some 1000⟩⟩),
         mkTimed 2 "" (.ExtendedSquitterADSB
          ⟨0x222222, .BDS05 ⟨none, none, some 1000⟩⟩)] "222222").map
      (fun sv => (sv.cur.latitude, sv.cur.longitude)) =
        some (none, none)) ∧
    ¬ ((none : Option F64) = some 5) := by
  decide

/-- C3: a DF 20 or DF 21 frame classified as both BDS50 and BDS60 has
both classifications invalidated and writes none of roll, track,
groundspeed, ias, mach. -/
theorem commb_both_invalidated (states : StateMap) (ts : Nat) (fr : String)
    (b50 : BDS50Fields) (b60 : BDS60Fields) (ap : ICAO) :
    let pre := ((states (icaoToString ap)).getD
      (StateVectors.new (asU32 ts))).cur
    ((∃ sv, (update_snapshot states
        (mkTimed ts fr (.CommBAltitudeReply ⟨some b50, some b60⟩ ap))).1
        (icaoToString ap) = some sv ∧
      sv.cur.roll = pre.roll ∧ sv.cur.track = pre.track ∧
      sv.cur.groundspeed = pre.groundspeed ∧ sv.cur.ias = pre.ias ∧
      sv.cur.mach = pre.mach) ∧
    (update_snapshot states
        (mkTimed ts fr (.CommBAltitudeReply ⟨some b50, some b60⟩ ap))).2.message =
      some { df := .CommBAltitudeReply ⟨none, none⟩ ap }) ∧
    ((∃ sv, (update_snapshot states
        (mkTimed ts fr (.CommBIdentityReply ⟨some b50, some b60⟩ ap))).1
        (icaoToString ap) = some sv ∧
      sv.cur.roll = pre.roll ∧ sv.cur.track = pre.track ∧
      sv.cur.groundspeed = pre.groundspeed ∧ sv.cur.ias = pre.ias ∧
      sv.cur.mach = pre.mach) ∧
    (update_snapshot states
        (mkTimed ts fr (.CommBIdentityReply ⟨some b50, some b60⟩ ap))).2.message =
      some { df := .CommBIdentityReply ⟨none, none⟩ ap }) :=
  ⟨⟨⟨_, update_snapshot_self states ts fr _ _ rfl, rfl, rfl, rfl, rfl, rfl⟩,
    rfl⟩,
   ⟨⟨_, update_snapshot_self states ts fr _ _ rfl, rfl, rfl, rfl, rfl, rfl⟩,
    rfl⟩⟩

/-- C4 amended: a unique BDS50 classification writes roll, track and
groundspeed, and a unique BDS60 classification writes ias and mach,
but only for DF 21 (CommBIdentityReply); the DF 20 (CommBAltitudeReply)
arm writes no snapshot field. -/
theorem commb_unique_writes (states : StateMap) (ts : Nat) (fr : String)
    (b50 : BDS50Fields) (b60 : BDS60Fields) (ap : ICAO) :
    let pre := ((states (icaoToString ap)).getD
      (StateVectors.new (asU32 ts))).cur
    (∃ sv, (update_snapshot states
        (mkTimed ts fr (.CommBIdentityReply ⟨some b50, none⟩ ap))).1
        (icaoToString ap) = some sv ∧
      sv.cur.roll = b50.roll_angle ∧ sv.cur.track = b50.track_angle ∧
      sv.cur.groundspeed = b50.groundspeed.map (fun x => (x : F64))) ∧
    (∃ sv, (update_snapshot states
        (mkTimed ts fr (.CommBIdentityReply ⟨none, some b60⟩ ap))).1
        (icaoToString ap) = some sv ∧
      sv.cur.ias = b60.indicated_airspeed ∧
      sv.cur.mach = b60.mach_number) ∧
    (∃ sv, (update_snapshot states
        (mkTimed ts fr (.CommBAltitudeReply ⟨some b50, none⟩ ap))).1
        (icaoToString ap) = some sv ∧
      sv.cur.roll = pre.roll ∧ sv.cur.track = pre.track ∧
      sv.cur.groundspeed = pre.groundspeed ∧ sv.cur.ias = pre.ias ∧
      sv.cur.mach = pre.mach) ∧
    (∃ sv, (update_snapshot states
        (mkTimed ts fr (.CommBAltitudeReply ⟨none, some b60⟩ ap))).1
        (icaoToString ap) = some sv ∧
      sv.cur.roll = pre.roll ∧ sv.cur.track = pre.track ∧
      sv.cur.groundspeed = pre.groundspeed ∧ sv.cur.ias = pre.ias ∧
      sv.cur.mach = pre.mach) :=
  ⟨⟨_, update_snapshot_self states ts fr _ _ rfl, rfl, rfl, rfl⟩,
   ⟨_, update_snapshot_self states ts fr _ _ rfl, rfl, rfl⟩,
   ⟨_, update_snapshot_self states ts fr _ _ rfl, rfl, rfl, rfl, rfl, rfl⟩,
   ⟨_, update_snapshot_self states ts fr _ _ rfl, rfl, rfl, rfl, rfl, rfl⟩⟩

/-- C4 counterexample: a DF 20 reply uniquely classified as BDS50
leaves roll, track and groundspeed unset (nothing is written),
contrary to the claim. -/
theorem df20_bds50_not_written :
    (((update_snapshot emptyStates
        (mkTimed 7 "" (.CommBAltitudeReply
          ⟨some ⟨some 1, some 2, some 300⟩, none⟩ 0x111111))).1
      "111111").map
      (fun sv => (sv.cur.roll, sv.cur.track, sv.cur.groundspeed)) =
        some (none, none, none)) ∧
    ¬ ((none : Option F64) = some 1) := by
  decide

/-- C9: a non-hex ingress frame makes the writer loop panic at
`hex::decode(&tmsg.frame).unwrap()` instead of being dropped. -/
theorem invalid_hex_panics :
    hexDecode "zz" = none ∧ writerStep "zz" = .panicked := by
  decide

/-- C10: for every DF 18 message the snapshot key is the rendered PI
field while the position reconstructor is invoked with the control
field address `cf.aa`. -/
theorem tisb_key_is_pi_cpr_target_is_aa (cf : CF) (pi : ICAO) :
    icao24 { df := .ExtendedSquitterTisB cf pi } = some (icaoToString pi) ∧
    cprTarget (.ExtendedSquitterTisB cf pi) = some cf.aa :=
  ⟨rfl, rfl⟩
